import Mathlib

/-!
Verification development for the SGNL linux host authorization core.

The definitions below are a shallow embedding of the C sources:
  - `src/c/lib/libsgnl.c` (authorization client: HTTP outcome handling,
    response parsing, single and batch access evaluation),
  - the sudo policy plugin (principal resolution, batch AND-of-decisions,
    `policy_check`, command-info construction),
  - the PAM account module (`check_access`, `pam_sm_acct_mgmt`),
  - the common configuration system (`sgnl_config_load`,
    `sgnl_config_validate`, `apply_config_values`) and client creation
    (`sgnl_client_create`, `load_config_from_common_system`).

External effects (the HTTP round trip, the filesystem, getenv, passwd
lookups) are modelled as explicit parameters: a `Transport` value stands for
the outcome of the curl request, a `String → Bool` predicate stands for the
`access(path, X_OK)` check, and option-typed parameters stand for nullable C
pointers.  JSON documents are modelled by the shape the code actually
inspects with json-c: a JSON `null` array element is a `none`, because
json-c represents JSON null as a NULL `json_object*`.
-/

namespace SgnlHost

/-- The `sgnl_result_t` taxonomy from `libsgnl.h`. -/
inductive SgnlResult
  | ok
  | allowed
  | denied
  | error
  | configError
  | networkError
  | authError
  | timeoutError
  | invalidRequest
  | memoryError
deriving DecidableEq, Repr

/-- One element of the response `decisions` array, as the code reads it:
the optional `decision` string, the optional `reason` string, and the
optional `assetId` string. -/
structure Decision where
  decision : Option String := none
  reason : Option String := none
  assetId : Option String := none
deriving DecidableEq, Repr

/-- A parsed JSON response body, restricted to the two top-level keys the
code inspects.  `apiError = some m` models a present `error` object whose
optional `message` string is `m`; `decisions = some ds` models a present
`decisions` key that is an array, whose elements are `none` for JSON null
(json-c returns a NULL object pointer for those). -/
structure RespJson where
  apiError : Option (Option String) := none
  decisions : Option (List (Option Decision)) := none
deriving DecidableEq, Repr

/-- A response body: either not parseable as JSON (`json_tokener_parse`
returns NULL) or a parsed document. -/
inductive RespBody
  | unparsable
  | json (j : RespJson)
deriving DecidableEq, Repr

/-- Outcome of the HTTP layer under `make_http_request`:
either curl/alloc setup fails (the function returns NULL), or
`curl_easy_perform` runs, yielding a curl error (or not), an HTTP status
and a body. -/
inductive Transport
  | initFail
  | perform (curlErr : Option String) (status : Int) (body : RespBody)
deriving DecidableEq, Repr

/-- The `http_response_t` record returned by `make_http_request`. -/
structure HttpResponse where
  status : Int
  body : RespBody
  curlErr : Option String
deriving DecidableEq, Repr

/-- `make_http_request` from libsgnl.c: on a curl error the error string is
recorded and `status_code` is set to 0; on setup failure NULL is returned. -/
def make_http_request : Transport → Option HttpResponse
  | Transport.initFail => none
  | Transport.perform none status body => some ⟨status, body, none⟩
  | Transport.perform (some e) _ body => some ⟨0, body, some e⟩

/-- The `sgnl_access_result_t` record (string buffers start zeroed). -/
structure AccessResult where
  result : SgnlResult := SgnlResult.error
  decision : String := ""
  reason : String := ""
  assetId : String := ""
  action : String := ""
  principalId : String := ""
  requestId : String := ""
  errorMessage : String := ""
  errorCode : Int := 0
deriving DecidableEq, Repr

/-- The unconditional `reason` extraction step shared by the parsing code:
copy the decision object's `reason` string into the result if present. -/
def apply_reason (d : Decision) (res : AccessResult) : AccessResult :=
  match d.reason with
  | some r => { res with reason := r }
  | none => res

/-- `parse_api_response` from libsgnl.c: checks the top-level `error`
object first, then the `decisions` array; an empty array is `Denied` with
decision string `Deny`; a NULL first element is an error; otherwise the
first decision's string decides (`Allow` allows, anything else denies,
with the reason extracted on the deny path). -/
def parse_api_response : RespBody → AccessResult → SgnlResult × AccessResult
  | RespBody.unparsable, res =>
      (SgnlResult.error, { res with errorMessage := "Failed to parse JSON response" })
  | RespBody.json j, res =>
    match j.apiError with
    | some m =>
        (SgnlResult.error,
          match m with
          | some msg => { res with errorMessage := msg }
          | none => res)
    | none =>
      match j.decisions with
      | none =>
          (SgnlResult.error, { res with errorMessage := "No decisions in response" })
      | some [] =>
          (SgnlResult.denied, { res with decision := "Deny" })
      | some (none :: _) => (SgnlResult.error, res)
      | some (some d :: _) =>
        match d.decision with
        | some s =>
            if s = "Allow" then (SgnlResult.allowed, { res with decision := s })
            else (SgnlResult.denied, apply_reason d { res with decision := s })
        | none => (SgnlResult.denied, apply_reason d res)

/-- The result record as `sgnl_evaluate_access` initializes it before the
HTTP call: error result, principal copied, asset copied if non-NULL,
action defaulting to `execute`, request id recorded. -/
def initial_access_result (principal : String) (assetId action : Option String)
    (reqId : String) : AccessResult :=
  { result := SgnlResult.error
    principalId := principal
    assetId := assetId.getD ""
    action := action.getD "execute"
    requestId := reqId }

/-- `sgnl_evaluate_access` from libsgnl.c (client assumed non-NULL and
initialized, principal non-NULL: the function returns NULL otherwise and
never reaches this path).  NULL response maps to `networkError`; a non-200
status maps 401/403 to `authError`, 500+ to `networkError`, anything else
to the generic `error`, recording the status in `errorCode`; a 200
response is parsed. -/
def sgnl_evaluate_access (principal : String) (assetId action : Option String)
    (reqId : String) (tr : Transport) : AccessResult :=
  let res0 := initial_access_result principal assetId action reqId
  match make_http_request tr with
  | none => { res0 with result := SgnlResult.networkError, errorMessage := "HTTP request failed" }
  | some resp =>
    if resp.status ≠ 200 then
      let kind :=
        if resp.status = 401 ∨ resp.status = 403 then SgnlResult.authError
        else if resp.status ≥ 500 then SgnlResult.networkError
        else SgnlResult.error
      { res0 with
        result := kind
        errorCode := resp.status
        errorMessage :=
          "HTTP " ++ toString resp.status ++ ": " ++ resp.curlErr.getD "Unknown error" }
    else
      let pr := parse_api_response resp.body res0
      { pr.2 with result := pr.1 }

/-- `sgnl_check_access` from libsgnl.c: evaluate a single query and
collapse to the result kind. -/
def sgnl_check_access (principal : String) (assetId action : Option String)
    (reqId : String) (tr : Transport) : SgnlResult :=
  (sgnl_evaluate_access principal assetId action reqId tr).result

/-- The action chosen for batch query `i`: `actions ? actions[i] :
"execute"` in the C code. -/
def batch_action (actions : Option (List String)) (i : Nat) : String :=
  match actions with
  | some l => (l.get? i).getD "execute"
  | none => "execute"

/-- The result record `sgnl_evaluate_access_batch` builds for slot `i`
from decision object `d`: initialized to the generic error kind, decision
string copied when present (`Allow` allows, anything else denies), reason
copied when present. -/
def batch_decision_result (principal reqId : String) (assetIds : List (Option String))
    (actions : Option (List String)) (i : Nat) (d : Decision) : AccessResult :=
  let base : AccessResult :=
    { result := SgnlResult.error
      principalId := principal
      requestId := reqId
      assetId := ((assetIds.get? i).getD none).getD ""
      action := batch_action actions i }
  let withDec :=
    match d.decision with
    | some s =>
        { base with
          decision := s
          result := if s = "Allow" then SgnlResult.allowed else SgnlResult.denied }
    | none => base
  apply_reason d withDec

/-- The synthetic `Denied` result `sgnl_evaluate_access_batch` places in
every slot the response did not cover. -/
def batch_default_denied (principal reqId : String) (assetIds : List (Option String))
    (actions : Option (List String)) (i : Nat) : AccessResult :=
  { result := SgnlResult.denied
    decision := "Deny"
    principalId := principal
    requestId := reqId
    assetId := ((assetIds.get? i).getD none).getD ""
    action := batch_action actions i }

/-- The slot array `sgnl_evaluate_access_batch` builds from a parsed
`decisions` array `ds`: slot `i` is NULL (`none`) when decision element
`i` is JSON null, is built from decision `i` when it is an object, and is
the synthetic denied result when the response has no element `i`. -/
def batch_build_slots (principal reqId : String) (assetIds : List (Option String))
    (actions : Option (List String)) (ds : List (Option Decision)) :
    List (Option AccessResult) :=
  (List.range assetIds.length).map (fun i =>
    match ds.get? i with
    | some none => none
    | some (some d) => some (batch_decision_result principal reqId assetIds actions i d)
    | none => some (batch_default_denied principal reqId assetIds actions i))

/-- `sgnl_evaluate_access_batch` from libsgnl.c (client assumed valid):
returns NULL on zero queries, on NULL response, on any non-200 status, on
an unparsable body, and on a missing or non-array `decisions` key;
otherwise the positional slot array. -/
def sgnl_evaluate_access_batch (principal : String) (assetIds : List (Option String))
    (actions : Option (List String)) (reqId : String) (tr : Transport) :
    Option (List (Option AccessResult)) :=
  if assetIds.length = 0 then none
  else
    match make_http_request tr with
    | none => none
    | some resp =>
      if resp.status ≠ 200 then none
      else
        match resp.body with
        | RespBody.unparsable => none
        | RespBody.json j =>
          match j.decisions with
          | none => none
          | some ds => some (batch_build_slots principal reqId assetIds actions ds)

/-! Sudo policy plugin (sgnl sudo plugin source). -/

/-- Sudo plugin return code: policy accepts. -/
def SUDO_RC_ACCEPT : Int := 1

/-- Sudo plugin return code: policy rejects. -/
def SUDO_RC_REJECT : Int := 0

/-- Sudo plugin return code: an error occurred. -/
def SUDO_RC_ERROR : Int := -1

/-- `get_current_username` from the sudo plugin: the first `user=` entry of
`user_info` wins; when there is none (or its value is the literal
`unknown`), fall back to the `SUDO_USER` environment variable, then to the
passwd lookup of the real uid, then to the literal `unknown`.  `sudoUser`
models `getenv("SUDO_USER")` and `pwName` models `getpwuid(getuid())`. -/
def get_current_username (userInfo : List String) (sudoUser pwName : Option String) :
    String :=
  let fromInfo :=
    match userInfo.find? (fun s => "user=".data.isPrefixOf s.data) with
    | some s => String.mk (s.data.drop 5)
    | none => "unknown"
  if fromInfo = "unknown" then
    match sudoUser with
    | some s => s
    | none => pwName.getD "unknown"
  else fromInfo

/-- The aggregation loop of `check_sudo_access_with_args`: scan the slots
in order, stopping at the first NULL slot; the first non-Allowed result
seen becomes the overall result, otherwise the overall result stays
Allowed. -/
def batch_overall_result : List (Option AccessResult) → SgnlResult
  | [] => SgnlResult.allowed
  | none :: _ => SgnlResult.allowed
  | some r :: rest =>
      if r.result ≠ SgnlResult.allowed then r.result else batch_overall_result rest

/-- `check_sudo_access_with_args` from the sudo plugin: one query
`(argv[0], "sudo")`, then one query `(argv[i], argv[0])` for every
non-empty argument; a single-query batch degenerates to
`sgnl_check_access`; a NULL batch result is an error; otherwise the
results are folded by `batch_overall_result`. -/
def check_sudo_access_with_args (username : String) (argv : List String)
    (reqId : String) (tr : Transport) : SgnlResult :=
  match argv with
  | [] => SgnlResult.error
  | cmd :: args =>
    let extraArgs := args.filter (fun a => a.length > 0)
    if extraArgs.length = 0 then
      sgnl_check_access username (some cmd) (some "sudo") reqId tr
    else
      let assetIds : List (Option String) := some cmd :: extraArgs.map some
      let actions : List String := "sudo" :: extraArgs.map (fun _ => cmd)
      match sgnl_evaluate_access_batch username assetIds (some actions) reqId tr with
      | none => SgnlResult.error
      | some results => batch_overall_result results

/-- The compiled-in PATH fallback of `resolve_command_path`. -/
def SGNL_FALLBACK_PATH : String := "/usr/local/sbin:/usr/local/bin:/usr/sbin:/usr/bin:/sbin:/bin"

/-- The colon split underlying the `strtok(path_copy, ":")` loop,
expressed on character lists (empty fields are produced here and dropped
by the caller, matching strtok's skipping of consecutive delimiters). -/
def split_on_colon : List Char → List (List Char)
  | [] => [[]]
  | c :: rest =>
    let r := split_on_colon rest
    if c = ':' then [] :: r
    else
      match r with
      | [] => [[c]]
      | h :: t => (c :: h) :: t

/-- `resolve_command_path` from the sudo plugin: a command containing a
slash is taken verbatim; otherwise the PATH entries are scanned with
`strtok` (which skips empty fields) and the first directory holding an
executable of that name wins.  `execOk` models `access(path, X_OK) == 0`
and `pathEnv` models `getenv("PATH")`. -/
def resolve_command_path (execOk : String → Bool) (pathEnv : Option String)
    (command : String) : Option String :=
  if command.data.contains '/' then some command
  else
    let dirs :=
      ((split_on_colon (pathEnv.getD SGNL_FALLBACK_PATH).data).map
        (fun l => String.mk l)).filter (fun d => d ≠ "")
    (dirs.find? (fun d => execOk (d ++ "/" ++ command))).map (fun d => d ++ "/" ++ command)

/-- `build_command_info` from the sudo plugin (allocation assumed to
succeed): NULL when the command cannot be resolved, otherwise the
`key=value` entries in source order, with the `cwd` entry present only
when `getcwd` succeeds. -/
def build_command_info (execOk : String → Bool) (pathEnv cwd : Option String)
    (command : String) : Option (List String) :=
  match resolve_command_path execOk pathEnv command with
  | none => none
  | some resolved =>
      some (("command=" ++ resolved) :: "runas_uid=0" :: "runas_gid=0" ::
        ((match cwd with
          | some c => ["cwd=" ++ c]
          | none => []) ++ ["timeout=300"]))

/-- The outputs of `policy_check`: the integer return code, the `errstr`
out-parameter, and the three out-pointers (all initialized to NULL). -/
structure PolicyCheckResult where
  rc : Int
  errstr : Option String := none
  commandInfo : Option (List String) := none
  argvOut : Option (List String) := none
  envpOut : Option (List String) := none
deriving DecidableEq, Repr

/-- The tail of `policy_check` after the username has been resolved and
found non-empty: run the batched access check; any non-Allowed outcome is
REJECT with the fixed policy-denied error string; on Allowed, the command
info is built (failure is an internal ERROR) and all out-parameters are
written in one step. -/
def policy_check_core (username : String) (envp : List String) (argv : List String)
    (execOk : String → Bool) (pathEnv cwd : Option String) (reqId : String)
    (tr : Transport) : PolicyCheckResult :=
  let result := check_sudo_access_with_args username argv reqId tr
  if result ≠ SgnlResult.allowed then
    { rc := SUDO_RC_REJECT, errstr := some "Access denied by SGNL policy" }
  else
    match build_command_info execOk pathEnv cwd (argv.headD "") with
    | none => { rc := SUDO_RC_ERROR, errstr := some "Failed to build command information" }
    | some ci =>
        { rc := SUDO_RC_ACCEPT
          commandInfo := some ci
          argvOut := some argv
          envpOut := some envp }

/-- `policy_check` from the sudo plugin: guards in source order (empty
argv is REJECT, missing client is ERROR, empty resolved username is
ERROR), then `policy_check_core`.  `clientOk` models
`plugin_state.sgnl_client != NULL`, `envp` the stored host environment. -/
def policy_check (clientOk : Bool) (envp userInfo : List String)
    (sudoUser pwName : Option String) (argv : List String)
    (execOk : String → Bool) (pathEnv cwd : Option String) (reqId : String)
    (tr : Transport) : PolicyCheckResult :=
  if argv.length = 0 then
    { rc := SUDO_RC_REJECT, errstr := some "No command specified" }
  else if clientOk = false then
    { rc := SUDO_RC_ERROR, errstr := some "SGNL client not initialized" }
  else
    let username := get_current_username userInfo sudoUser pwName
    if username.length = 0 then
      { rc := SUDO_RC_ERROR, errstr := some "Cannot determine username" }
    else policy_check_core username envp argv execOk pathEnv cwd reqId tr

/-! PAM account module. -/

/-- PAM return codes used by the account hook. -/
inductive PamCode
  | success
  | permDenied
  | authinfoUnavail
deriving DecidableEq, Repr

/-- `check_access` from the PAM module: a failed lazy client
initialization is `authinfoUnavail`; otherwise `sgnl_check_access` with a
NULL action decides (`allowed` is success, `denied` is permission denied,
everything else is `authinfoUnavail`). -/
def check_access (initOk : Bool) (username service reqId : String) (tr : Transport) :
    PamCode :=
  if initOk = false then PamCode.authinfoUnavail
  else
    match sgnl_check_access username (some service) none reqId tr with
    | SgnlResult.allowed => PamCode.success
    | SgnlResult.denied => PamCode.permDenied
    | _ => PamCode.authinfoUnavail

/-- `pam_sm_acct_mgmt` from the PAM module: a missing username or service
is `authinfoUnavail`, otherwise `check_access` decides. -/
def pam_sm_acct_mgmt (username service : Option String) (initOk : Bool)
    (reqId : String) (tr : Transport) : PamCode :=
  match username, service with
  | some u, some s => check_access initOk u s reqId tr
  | _, _ => PamCode.authinfoUnavail

/-! Common configuration system (config.c). -/

/-- A JSON value at one of the recognized configuration keys, carrying
only the type distinctions `apply_config_values` checks with
`json_object_is_type`. -/
inductive JsonVal
  | str (s : String)
  | int (n : Int)
  | boolean (b : Bool)
  | null
  | other
deriving DecidableEq, Repr

/-- The nested `sudo` object of the configuration document. -/
structure SudoJson where
  access_msg : Option JsonVal := none
  command_attribute : Option JsonVal := none
  batch_evaluation : Option JsonVal := none
deriving DecidableEq, Repr

/-- The nested `http` object of the configuration document. -/
structure HttpJson where
  timeout : Option JsonVal := none
  connect_timeout : Option JsonVal := none
  ssl_verify_peer : Option JsonVal := none
  ssl_verify_host : Option JsonVal := none
  user_agent : Option JsonVal := none
deriving DecidableEq, Repr

/-- A parsed configuration document, restricted to the recognized
top-level keys. -/
structure ConfigJson where
  api_url : Option JsonVal := none
  api_token : Option JsonVal := none
  protected_system_token : Option JsonVal := none
  tenant : Option JsonVal := none
  sudoCfg : Option SudoJson := none
  httpCfg : Option HttpJson := none
  debug : Option JsonVal := none
  timeout_seconds : Option JsonVal := none
  log_level : Option JsonVal := none
deriving DecidableEq, Repr

/-- The `sgnl_config_t` record; `sgnl_config_create` zeroes it, which the
field defaults model. -/
structure SgnlConfig where
  api_url : String := ""
  api_token : String := ""
  tenant : String := ""
  http_timeout_seconds : Int := 0
  http_connect_timeout_seconds : Int := 0
  ssl_verify_peer : Bool := false
  ssl_verify_host : Bool := false
  user_agent : String := ""
  debug_mode : Bool := false
  log_level : String := ""
  sudo_access_msg : Bool := false
  sudo_command_attribute : String := ""
  sudo_batch_evaluation : Bool := false
  initialized : Bool := false
deriving DecidableEq, Repr

/-- The `sgnl_config_result_t` taxonomy. -/
inductive SgnlConfigResult
  | ok
  | fileNotFound
  | invalidJson
  | missingRequired
  | invalidValue
  | memoryError
deriving DecidableEq, Repr

/-- `sgnl_config_set_defaults` from config.c. -/
def sgnl_config_set_defaults (c : SgnlConfig) : SgnlConfig :=
  { c with
    http_timeout_seconds := 10
    http_connect_timeout_seconds := 3
    ssl_verify_peer := true
    ssl_verify_host := true
    user_agent := "SGNL-Client/1.0"
    debug_mode := false
    log_level := "info"
    sudo_access_msg := true
    sudo_command_attribute := "id"
    sudo_batch_evaluation := false }

/-- Overlay helper: a string-typed key replaces the current value, any
other presence leaves it unchanged. -/
def json_str (cur : String) : Option JsonVal → String
  | some (JsonVal.str s) => s
  | _ => cur

/-- Overlay helper: an int-typed key replaces the current value. -/
def json_int (cur : Int) : Option JsonVal → Int
  | some (JsonVal.int n) => n
  | _ => cur

/-- Overlay helper for flags accepting booleans and the strings
`"true"`/`"1"` (used for `debug`, `access_msg`, `batch_evaluation`). -/
def json_bool_flag (cur : Bool) : Option JsonVal → Bool
  | some (JsonVal.boolean b) => b
  | some (JsonVal.str s) => (s == "true") || (s == "1")
  | _ => cur

/-- Overlay helper for flags accepting only literal booleans (the SSL
verification switches). -/
def json_bool_strict (cur : Bool) : Option JsonVal → Bool
  | some (JsonVal.boolean b) => b
  | _ => cur

/-- `apply_config_values` from config.c, overlaying recognized keys in
source order (note the top-level `timeout_seconds` is applied after
`http.timeout` and therefore wins, and `protected_system_token` is a
second-preference alias for `api_token`). -/
def apply_config_values (c : SgnlConfig) (j : ConfigJson) : SgnlConfig :=
  let c := { c with api_url := json_str c.api_url j.api_url }
  let c :=
    match j.api_token with
    | some (JsonVal.str s) => { c with api_token := s }
    | _ =>
      match j.protected_system_token with
      | some (JsonVal.str s) => { c with api_token := s }
      | _ => c
  let c := { c with tenant := json_str c.tenant j.tenant }
  let c :=
    match j.sudoCfg with
    | none => c
    | some sj =>
      { c with
        sudo_access_msg := json_bool_flag c.sudo_access_msg sj.access_msg
        sudo_command_attribute := json_str c.sudo_command_attribute sj.command_attribute
        sudo_batch_evaluation := json_bool_flag c.sudo_batch_evaluation sj.batch_evaluation }
  let c :=
    match j.httpCfg with
    | none => c
    | some hj =>
      { c with
        http_timeout_seconds := json_int c.http_timeout_seconds hj.timeout
        http_connect_timeout_seconds := json_int c.http_connect_timeout_seconds hj.connect_timeout
        ssl_verify_peer := json_bool_strict c.ssl_verify_peer hj.ssl_verify_peer
        ssl_verify_host := json_bool_strict c.ssl_verify_host hj.ssl_verify_host
        user_agent := json_str c.user_agent hj.user_agent }
  let c := { c with debug_mode := json_bool_flag c.debug_mode j.debug }
  let c := { c with http_timeout_seconds := json_int c.http_timeout_seconds j.timeout_seconds }
  { c with log_level := json_str c.log_level j.log_level }

/-- `sgnl_config_validate` from config.c: required fields first, then the
timeout bounds 1..300 and 1..60. -/
def sgnl_config_validate (c : SgnlConfig) : SgnlConfigResult :=
  if c.api_url.length = 0 then SgnlConfigResult.missingRequired
  else if c.api_token.length = 0 then SgnlConfigResult.missingRequired
  else if c.http_timeout_seconds < 1 ∨ c.http_timeout_seconds > 300 then
    SgnlConfigResult.invalidValue
  else if c.http_connect_timeout_seconds < 1 ∨ c.http_connect_timeout_seconds > 60 then
    SgnlConfigResult.invalidValue
  else SgnlConfigResult.ok

/-- The outcome of reading and tokenizing the configuration file inside
`load_config_file`. -/
inductive ConfigFileOutcome
  | notFound
  | invalidJson
  | parsed (j : ConfigJson)
deriving DecidableEq, Repr

/-- `sgnl_config_load` from config.c: set defaults, read and parse the
file, overlay recognized keys, validate — but propagate a validation
failure only under `strict_validation`; otherwise the load succeeds and
the config is marked initialized. -/
def sgnl_config_load (strict : Bool) (file : ConfigFileOutcome) :
    SgnlConfigResult × SgnlConfig :=
  let c := sgnl_config_set_defaults {}
  match file with
  | ConfigFileOutcome.notFound => (SgnlConfigResult.fileNotFound, c)
  | ConfigFileOutcome.invalidJson => (SgnlConfigResult.invalidJson, c)
  | ConfigFileOutcome.parsed j =>
    let c := apply_config_values c j
    let v := sgnl_config_validate c
    if v ≠ SgnlConfigResult.ok ∧ strict = true then (v, c)
    else (SgnlConfigResult.ok, { c with initialized := true })

/-! Client creation (libsgnl.c). -/

/-- The caller-supplied `sgnl_client_config_t`. -/
structure ClientConfig where
  timeout_seconds : Int := 0
  retry_count : Int := 0
  retry_delay_ms : Int := 0
  enable_debug_logging : Bool := false
  validate_ssl : Bool := true
  user_agent : Option String := none
deriving DecidableEq, Repr

/-- The `sgnl_client` record with the compiled-in defaults
`sgnl_client_create` installs before applying overrides. -/
structure Client where
  api_url : String := ""
  api_token : String := ""
  tenant : String := ""
  timeout_seconds : Int := 30
  connect_timeout_seconds : Int := 10
  ssl_verify_peer : Bool := true
  ssl_verify_host : Bool := true
  user_agent : String := "SGNL-Client/1.0"
  debug_enabled : Bool := false
  initialized : Bool := false
deriving DecidableEq, Repr

/-- `load_config_from_common_system` from libsgnl.c: load the common
configuration (strict validation, as `SGNL_CONFIG_DEFAULT_OPTIONS` has
it) and copy the url, token, tenant, both timeouts, user agent and debug
flag into the client; the SSL flags are not copied. -/
def load_config_from_common_system (c : Client) (file : ConfigFileOutcome) :
    Option Client :=
  if (sgnl_config_load true file).1 = SgnlConfigResult.ok then
    some { c with
      api_url := (sgnl_config_load true file).2.api_url
      api_token := (sgnl_config_load true file).2.api_token
      tenant := (sgnl_config_load true file).2.tenant
      timeout_seconds := (sgnl_config_load true file).2.http_timeout_seconds
      connect_timeout_seconds := (sgnl_config_load true file).2.http_connect_timeout_seconds
      user_agent := (sgnl_config_load true file).2.user_agent
      debug_enabled := (sgnl_config_load true file).2.debug_mode }
  else none

/-- The first phase of `sgnl_client_create`: the compiled-in defaults with
the caller's overrides applied (positive timeout, debug flag, SSL flags,
user agent). -/
def client_with_overrides (cc : Option ClientConfig) : Client :=
  let c : Client := {}
  match cc with
  | none => c
  | some k =>
    let c :=
      if k.timeout_seconds > 0 then { c with timeout_seconds := k.timeout_seconds } else c
    let c :=
      { c with
        debug_enabled := k.enable_debug_logging
        ssl_verify_peer := k.validate_ssl
        ssl_verify_host := k.validate_ssl }
    match k.user_agent with
    | some ua => { c with user_agent := ua }
    | none => c

/-- `sgnl_client_create` from libsgnl.c: defaults, then the caller's
overrides, then the configuration file load — which overwrites the url,
token, tenant, timeouts, user agent and debug flag — then the
required-field check. -/
def sgnl_client_create (cc : Option ClientConfig) (file : ConfigFileOutcome) :
    Option Client :=
  match load_config_from_common_system (client_with_overrides cc) file with
  | none => none
  | some c2 =>
    if c2.api_url.length = 0 ∨ c2.api_token.length = 0 then none
    else some { c2 with initialized := true }

/-! Helper lemmas. -/

theorem apply_reason_result (d : Decision) (res : AccessResult) :
    (apply_reason d res).result = res.result := by
  rcases d with ⟨dec, rsn, aid⟩
  rcases rsn with _ | rs <;> simp [apply_reason]

theorem apply_reason_decision (d : Decision) (res : AccessResult) :
    (apply_reason d res).decision = res.decision := by
  rcases d with ⟨dec, rsn, aid⟩
  rcases rsn with _ | rs <;> simp [apply_reason]

theorem apply_reason_assetId (d : Decision) (res : AccessResult) :
    (apply_reason d res).assetId = res.assetId := by
  rcases d with ⟨dec, rsn, aid⟩
  rcases rsn with _ | rs <;> simp [apply_reason]

theorem apply_reason_action (d : Decision) (res : AccessResult) :
    (apply_reason d res).action = res.action := by
  rcases d with ⟨dec, rsn, aid⟩
  rcases rsn with _ | rs <;> simp [apply_reason]

/-- On any body, the parsed result kind is `allowed` exactly when the
decision string written into the (initially blank) result is `Allow`. -/
theorem parse_api_response_allowed_iff (body : RespBody) (res : AccessResult)
    (h : res.decision = "") :
    ((parse_api_response body res).1 = SgnlResult.allowed ↔
      (parse_api_response body res).2.decision = "Allow") := by
  rcases body with _ | ⟨ae, dsOpt⟩
  · simp [parse_api_response, h]
  · rcases ae with _ | msg
    · rcases dsOpt with _ | ds
      · simp [parse_api_response, h]
      · rcases ds with _ | ⟨d0, rest⟩
        · simp [parse_api_response]
        · rcases d0 with _ | d
          · simp [parse_api_response, h]
          · rcases hd : d.decision with _ | s
            · simp [parse_api_response, hd, apply_reason_decision, h]
            · by_cases hs : s = "Allow"
              · subst hs
                simp [parse_api_response, hd]
              · simp [parse_api_response, hd, hs, apply_reason_decision]
    · rcases msg with _ | m <;> simp [parse_api_response, h]

theorem batch_decision_result_allowed_iff (p reqId : String)
    (assetIds : List (Option String)) (actions : Option (List String)) (i : Nat)
    (d : Decision) :
    ((batch_decision_result p reqId assetIds actions i d).result = SgnlResult.allowed ↔
      (batch_decision_result p reqId assetIds actions i d).decision = "Allow") := by
  rcases hd : d.decision with _ | s
  · simp [batch_decision_result, hd, apply_reason_result, apply_reason_decision]
    decide
  · by_cases hs : s = "Allow"
    · subst hs
      simp [batch_decision_result, hd, apply_reason_result, apply_reason_decision]
    · simp [batch_decision_result, hd, hs, apply_reason_result, apply_reason_decision]

theorem batch_decision_result_assetId (p reqId : String)
    (assetIds : List (Option String)) (actions : Option (List String)) (i : Nat)
    (d : Decision) :
    (batch_decision_result p reqId assetIds actions i d).assetId =
      ((assetIds.get? i).getD none).getD "" := by
  rcases hd : d.decision with _ | s <;>
    simp [batch_decision_result, hd, apply_reason_assetId]

theorem batch_decision_result_action (p reqId : String)
    (assetIds : List (Option String)) (actions : Option (List String)) (i : Nat)
    (d : Decision) :
    (batch_decision_result p reqId assetIds actions i d).action =
      batch_action actions i := by
  rcases hd : d.decision with _ | s <;>
    simp [batch_decision_result, hd, apply_reason_action]

/-- A successful batch evaluation always produces the positional slot
array built by `batch_build_slots` from the response's decisions. -/
theorem batch_some_eq_build (p reqId : String) (assetIds : List (Option String))
    (actions : Option (List String)) (tr : Transport)
    (slots : List (Option AccessResult))
    (h : sgnl_evaluate_access_batch p assetIds actions reqId tr = some slots) :
    ∃ ds : List (Option Decision),
      slots = batch_build_slots p reqId assetIds actions ds := by
  unfold sgnl_evaluate_access_batch at h
  by_cases hn : assetIds.length = 0
  · rw [if_pos hn] at h
    exact absurd h (by simp)
  · rw [if_neg hn] at h
    rcases tr with _ | ⟨ce, st, body⟩
    · exact absurd h (by simp [make_http_request])
    · rcases ce with _ | e
      · by_cases hst : st = 200
        · subst hst
          rcases body with _ | ⟨ae, dsOpt⟩
          · exact absurd h (by simp [make_http_request])
          · rcases dsOpt with _ | ds
            · exact absurd h (by simp [make_http_request])
            · refine ⟨ds, ?_⟩
              simp [make_http_request] at h
              exact h.symm
        · rw [show make_http_request (Transport.perform none st body) =
              some ⟨st, body, none⟩ from rfl] at h
          simp only [if_pos hst] at h
          exact absurd h (by simp)
      · exact absurd h (by simp [make_http_request])

/-- Membership in the built slot array: every occupied slot comes either
from the decision object at its own index or from the synthetic denied
fill. -/
theorem batch_build_slots_mem (p reqId : String) (assetIds : List (Option String))
    (actions : Option (List String)) (ds : List (Option Decision)) (r : AccessResult)
    (h : some r ∈ batch_build_slots p reqId assetIds actions ds) :
    ∃ i, i < assetIds.length ∧
      ((∃ d, ds.get? i = some (some d) ∧
          r = batch_decision_result p reqId assetIds actions i d)
        ∨ (ds.get? i = none ∧ r = batch_default_denied p reqId assetIds actions i)) := by
  unfold batch_build_slots at h
  rw [List.mem_map] at h
  obtain ⟨i, hi, hf⟩ := h
  rw [List.mem_range] at hi
  refine ⟨i, hi, ?_⟩
  rcases hds : ds.get? i with _ | od
  · right
    rw [hds] at hf
    simp at hf
    exact ⟨rfl, hf.symm⟩
  · rcases od with _ | d
    · rw [hds] at hf
      simp at hf
    · left
      rw [hds] at hf
      simp at hf
      exact ⟨d, rfl, hf.symm⟩

/-- The aggregation loop of the sudo plugin, characterized on slot arrays
with no NULL slot: it is Allowed exactly when every slot's result is
Allowed, and otherwise equals the first non-Allowed result. -/
theorem batch_overall_result_spec (slots : List (Option AccessResult))
    (hfull : ∀ x ∈ slots, x ≠ none) :
    (batch_overall_result slots = SgnlResult.allowed ↔
      ∀ r : AccessResult, some r ∈ slots → r.result = SgnlResult.allowed)
    ∧ ∀ pre r rest, slots = pre ++ some r :: rest →
        (∀ r2 : AccessResult, some r2 ∈ pre → r2.result = SgnlResult.allowed) →
        r.result ≠ SgnlResult.allowed →
        batch_overall_result slots = r.result := by
  induction slots with
  | nil =>
    refine ⟨by simp [batch_overall_result], ?_⟩
    intro pre r rest hp
    exact absurd hp (by simp)
  | cons x t ih =>
    rcases x with _ | r0
    · exact absurd (hfull none (by simp)) (by simp)
    · have ht := ih (fun y hy => hfull y (List.mem_cons_of_mem _ hy))
      by_cases h0 : r0.result = SgnlResult.allowed
      · have hred : batch_overall_result (some r0 :: t) = batch_overall_result t := by
          simp [batch_overall_result, h0]
        refine ⟨?_, ?_⟩
        · rw [hred]
          constructor
          · intro hall r hr
            rcases List.mem_cons.mp hr with heq | hmem
            · obtain rfl : r = r0 := Option.some.inj heq
              exact h0
            · exact (ht.1.mp hall) r hmem
          · intro hall
            exact ht.1.mpr (fun r hr => hall r (List.mem_cons_of_mem _ hr))
        · intro pre r rest hp hpre hr
          rcases pre with _ | ⟨p0, pre'⟩
          · rw [List.nil_append] at hp
            injection hp with h1 h2
            injection h1 with h1
            subst h1
            exact absurd h0 hr
          · rw [List.cons_append] at hp
            injection hp with h1 h2
            rw [hred]
            exact ht.2 pre' r rest h2 (fun r2 h2m => hpre r2 (List.mem_cons_of_mem _ h2m)) hr
      · have hred : batch_overall_result (some r0 :: t) = r0.result := by
          simp [batch_overall_result, h0]
        refine ⟨?_, ?_⟩
        · rw [hred]
          constructor
          · intro hres
            exact absurd hres h0
          · intro hall
            exact absurd (hall r0 (by simp)) h0
        · intro pre r rest hp hpre hr
          rcases pre with _ | ⟨p0, pre'⟩
          · rw [List.nil_append] at hp
            injection hp with h1 h2
            injection h1 with h1
            subst h1
            exact hred
          · rw [List.cons_append] at hp
            injection hp with h1 h2
            refine absurd (hpre r0 ?_) h0
            rw [← h1]
            exact List.mem_cons_self _ _

/-- A non-200 HTTP status is never mapped to the Allowed kind. -/
theorem http_error_kind_ne_allowed (st : Int) :
    (if st = 401 ∨ st = 403 then SgnlResult.authError
     else if st ≥ 500 then SgnlResult.networkError
     else SgnlResult.error) ≠ SgnlResult.allowed := by
  split
  · decide
  · split
    · decide
    · decide

/-- Claim C7: the PAM account hook returns AuthInfoUnavailable when the
principal or the service is absent; with both present, a client outcome of
Allowed maps to Success, Denied maps to PermDenied, and every other kind
maps to AuthInfoUnavailable. -/
theorem pam_acct_mgmt_mapping (username service : Option String)
    (u s reqId : String) (tr : Transport) :
    ((username = none ∨ service = none) →
      ∀ initOk : Bool,
        pam_sm_acct_mgmt username service initOk reqId tr = PamCode.authinfoUnavail)
    ∧ (sgnl_check_access u (some s) none reqId tr = SgnlResult.allowed →
        pam_sm_acct_mgmt (some u) (some s) true reqId tr = PamCode.success)
    ∧ (sgnl_check_access u (some s) none reqId tr = SgnlResult.denied →
        pam_sm_acct_mgmt (some u) (some s) true reqId tr = PamCode.permDenied)
    ∧ (sgnl_check_access u (some s) none reqId tr ≠ SgnlResult.allowed →
        sgnl_check_access u (some s) none reqId tr ≠ SgnlResult.denied →
        pam_sm_acct_mgmt (some u) (some s) true reqId tr = PamCode.authinfoUnavail) := by
  refine ⟨?_, ?_, ?_, ?_⟩
  · rintro (rfl | rfl) initOk
    · simp [pam_sm_acct_mgmt]
    · rcases username with _ | u2 <;> simp [pam_sm_acct_mgmt]
  · intro h
    simp [pam_sm_acct_mgmt, check_access, h]
  · intro h
    simp [pam_sm_acct_mgmt, check_access, h]
  · intro h1 h2
    rcases hres : sgnl_check_access u (some s) none reqId tr with
      _ | _ | _ | _ | _ | _ | _ | _ | _ | _
    all_goals first
      | exact absurd hres h1
      | exact absurd hres h2
      | simp [pam_sm_acct_mgmt, check_access, hres]

/-- Witness for claim C7: a missing username, an Allow response, and an
unreachable service at concrete inputs. -/
theorem pam_acct_mgmt_mapping_witness :
    pam_sm_acct_mgmt none (some "sshd") true "r" Transport.initFail = PamCode.authinfoUnavail
    ∧ pam_sm_acct_mgmt (some "alice") (some "sshd") true "r"
        (Transport.perform none 200
          (RespBody.json ⟨none, some [some ⟨some "Allow", none, none⟩]⟩)) = PamCode.success
    ∧ pam_sm_acct_mgmt (some "alice") (some "sshd") true "r" Transport.initFail =
        PamCode.authinfoUnavail :=
  ⟨(pam_acct_mgmt_mapping none (some "sshd") "x" "y" "r" Transport.initFail).1 (Or.inl rfl) true,
   (pam_acct_mgmt_mapping (some "alice") (some "sshd") "alice" "sshd" "r"
      (Transport.perform none 200
        (RespBody.json ⟨none, some [some ⟨some "Allow", none, none⟩]⟩))).2.1 (by decide),
   (pam_acct_mgmt_mapping (some "alice") (some "sshd") "alice" "sshd" "r"
      Transport.initFail).2.2.2 (by decide) (by decide)⟩

/-- Claim C9: for every access result produced by a single evaluation or
occupying a slot of a batch evaluation, the result kind is Allowed exactly
when the decision string equals "Allow". -/
theorem result_allowed_iff_decision_allow (p reqId : String) (aid act : Option String)
    (tr : Transport) (assetIds : List (Option String)) (acts : Option (List String))
    (tr2 : Transport) (slots : List (Option AccessResult)) (r : AccessResult) :
    ((sgnl_evaluate_access p aid act reqId tr).result = SgnlResult.allowed ↔
      (sgnl_evaluate_access p aid act reqId tr).decision = "Allow")
    ∧ (sgnl_evaluate_access_batch p assetIds acts reqId tr2 = some slots →
        some r ∈ slots →
        (r.result = SgnlResult.allowed ↔ r.decision = "Allow")) := by
  constructor
  · rcases tr with _ | ⟨ce, st, body⟩
    · simp [sgnl_evaluate_access, make_http_request, initial_access_result]
      decide
    · rcases ce with _ | e
      · by_cases hst : st = 200
        · subst hst
          have h := parse_api_response_allowed_iff body
            (initial_access_result p aid act reqId) rfl
          simpa [sgnl_evaluate_access, make_http_request] using h
        · simp [sgnl_evaluate_access, make_http_request, hst, initial_access_result,
            http_error_kind_ne_allowed st]
          decide
      · simp [sgnl_evaluate_access, make_http_request, initial_access_result]
        decide
  · intro hb hm
    obtain ⟨ds, rfl⟩ := batch_some_eq_build p reqId assetIds acts tr2 slots hb
    obtain ⟨i, hi, hcase⟩ := batch_build_slots_mem p reqId assetIds acts ds r hm
    rcases hcase with ⟨d, hget, rfl⟩ | ⟨hget, rfl⟩
    · exact batch_decision_result_allowed_iff p reqId assetIds acts i d
    · simp [batch_default_denied]

/-- Witness for claim C9 at concrete inputs: an Allow response for the
single path and a Deny slot for the batch path. -/
theorem result_allowed_iff_decision_allow_witness :
    ((sgnl_evaluate_access "u" (some "a") none "r"
        (Transport.perform none 200
          (RespBody.json ⟨none, some [some ⟨some "Allow", none, none⟩]⟩))).result =
          SgnlResult.allowed ↔
      (sgnl_evaluate_access "u" (some "a") none "r"
        (Transport.perform none 200
          (RespBody.json ⟨none, some [some ⟨some "Allow", none, none⟩]⟩))).decision = "Allow")
    ∧ ((batch_decision_result "u" "r" [some "a"] none 0 ⟨some "Deny", none, none⟩).result =
          SgnlResult.allowed ↔
        (batch_decision_result "u" "r" [some "a"] none 0 ⟨some "Deny", none, none⟩).decision =
          "Allow") :=
  ⟨(result_allowed_iff_decision_allow "u" "r" (some "a") none
      (Transport.perform none 200
        (RespBody.json ⟨none, some [some ⟨some "Allow", none, none⟩]⟩))
      [some "a"] none Transport.initFail [] {}).1,
   (result_allowed_iff_decision_allow "u" "r" (some "a") none Transport.initFail
      [some "a"] none
      (Transport.perform none 200
        (RespBody.json ⟨none, some [some ⟨some "Deny", none, none⟩]⟩))
      (batch_build_slots "u" "r" [some "a"] none [some ⟨some "Deny", none, none⟩])
      (batch_decision_result "u" "r" [some "a"] none 0 ⟨some "Deny", none, none⟩)).2
      rfl (by decide)⟩

/-- Counterexample for claim C1: with response decisions `[null, Deny]`
the batch holds a non-Allowed per-query result, yet the aggregate decision
is Allowed, because the aggregation loop stops at the NULL slot. -/
theorem sudo_null_slot_breaks_and :
    check_sudo_access_with_args "alice" ["cat", "shadow"] "r"
        (Transport.perform none 200
          (RespBody.json ⟨none, some [none, some ⟨some "Deny", none, none⟩]⟩)) =
      SgnlResult.allowed
    ∧ sgnl_evaluate_access_batch "alice" [some "cat", some "shadow"] (some ["sudo", "cat"]) "r"
        (Transport.perform none 200
          (RespBody.json ⟨none, some [none, some ⟨some "Deny", none, none⟩]⟩)) =
      some [none,
        some { result := SgnlResult.denied, decision := "Deny", assetId := "shadow",
               action := "cat", principalId := "alice", requestId := "r" }]
    ∧ ({ result := SgnlResult.denied, decision := "Deny", assetId := "shadow",
         action := "cat", principalId := "alice", requestId := "r" } : AccessResult).result ≠
        SgnlResult.allowed :=
  ⟨rfl, rfl, by decide⟩

/-- Claim C2 (behavior at the failing input): a 200 response whose
decisions array starts with a JSON-null element makes the sudo policy
check return ACCEPT with full outputs, even though the only real decision
in the response is a Deny: the NULL slot terminates the all-allowed scan
early and the aggregate stays Allowed, granting access on a malformed
response element. -/
theorem policy_check_grants_on_null_decision_element :
    policy_check true ["HOME=/root"] ["user=alice"] none none ["/bin/cat", "/etc/shadow"]
        (fun _ => false) none (some "/root") "r"
        (Transport.perform none 200
          (RespBody.json ⟨none, some [none, some ⟨some "Deny", some "sensitive path", none⟩]⟩)) =
      { rc := SUDO_RC_ACCEPT
        errstr := none
        commandInfo := some ["command=/bin/cat", "runas_uid=0", "runas_gid=0",
          "cwd=/root", "timeout=300"]
        argvOut := some ["/bin/cat", "/etc/shadow"]
        envpOut := some ["HOME=/root"] } := by decide

/-- Counterexample for claim C3: one query, response decisions `[null]`;
the returned array's only slot is NULL and carries neither the query's
asset id nor its action. -/
theorem batch_null_decision_element_slot_empty :
    sgnl_evaluate_access_batch "test-user" [some "asset-a"] none "req-1"
        (Transport.perform none 200 (RespBody.json ⟨none, some [none]⟩)) =
      some [none] := rfl

/-- Counterexample for claim C4: a batch slot whose decision object lacks
the decision field carries the generic Error kind, not Denied. -/
theorem batch_missing_decision_field_not_denied :
    sgnl_evaluate_access_batch "u" [some "a"] none "r"
        (Transport.perform none 200
          (RespBody.json ⟨none, some [some ⟨none, some "why", none⟩]⟩)) =
      some [some { result := SgnlResult.error
                   reason := "why"
                   assetId := "a"
                   action := "execute"
                   principalId := "u"
                   requestId := "r" }]
    ∧ SgnlResult.error ≠ SgnlResult.denied :=
  ⟨rfl, by decide⟩

/-- Counterexample for claim C5: the resolved principal is the literal
"unknown", yet the check proceeds to the service and returns ACCEPT on an
Allow response instead of the ERROR code. -/
theorem policy_check_unknown_principal_proceeds :
    get_current_username [] none none = "unknown"
    ∧ policy_check true [] [] none none ["/bin/ls"] (fun _ => true) none (some "/") "r"
        (Transport.perform none 200
          (RespBody.json ⟨none, some [some ⟨some "Allow", none, none⟩]⟩)) =
      { rc := SUDO_RC_ACCEPT
        errstr := none
        commandInfo := some ["command=/bin/ls", "runas_uid=0", "runas_gid=0",
          "cwd=/", "timeout=300"]
        argvOut := some ["/bin/ls"]
        envpOut := some [] }
    ∧ SUDO_RC_ACCEPT ≠ SUDO_RC_ERROR :=
  ⟨rfl, rfl, by decide⟩

/-- Counterexample for claim C6: a curl transport failure zeroes the
status code, and the evaluation maps it to the generic Error kind rather
than NetworkError. -/
theorem transport_failure_generic_error :
    (sgnl_evaluate_access "u" (some "a") none "r"
        (Transport.perform (some "Failed to connect to host") 0 RespBody.unparsable)).result =
      SgnlResult.error
    ∧ SgnlResult.error ≠ SgnlResult.networkError :=
  ⟨rfl, by decide⟩

/-- Counterexample for claim C8: with strict_validation = false a document
missing the required api_url still loads with OK instead of the
missing-required-field error. -/
theorem nonstrict_load_missing_required_succeeds :
    (sgnl_config_load false
        (ConfigFileOutcome.parsed { api_token := some (JsonVal.str "tok") })).1 =
      SgnlConfigResult.ok
    ∧ SgnlConfigResult.ok ≠ SgnlConfigResult.missingRequired :=
  ⟨rfl, by decide⟩

/-- Claim C1 (amended): for a sudo check over a command with at least one
non-empty argument, provided the returned batch occupies every slot (no
JSON-null decision element), the aggregate decision is Allowed exactly
when every per-query result is Allowed; otherwise it carries the first
non-Allowed result's kind, and `policy_check` then returns REJECT with the
error string "Access denied by SGNL policy". -/
theorem sudo_and_of_decisions (username cmd reqId : String) (args : List String)
    (tr : Transport) (slots : List (Option AccessResult))
    (envp userInfo : List String) (sudoUser pwName : Option String)
    (execOk : String → Bool) (pathEnv cwd : Option String)
    (hargs : ¬ (args.filter (fun a => a.length > 0)).length = 0)
    (hbatch : sgnl_evaluate_access_batch username
        (some cmd :: (args.filter (fun a => a.length > 0)).map some)
        (some ("sudo" :: (args.filter (fun a => a.length > 0)).map (fun _ => cmd)))
        reqId tr = some slots)
    (hfull : ∀ x ∈ slots, x ≠ none) :
    (check_sudo_access_with_args username (cmd :: args) reqId tr = SgnlResult.allowed ↔
      ∀ r : AccessResult, some r ∈ slots → r.result = SgnlResult.allowed)
    ∧ (∀ pre r rest, slots = pre ++ some r :: rest →
        (∀ r2 : AccessResult, some r2 ∈ pre → r2.result = SgnlResult.allowed) →
        r.result ≠ SgnlResult.allowed →
        check_sudo_access_with_args username (cmd :: args) reqId tr = r.result)
    ∧ (check_sudo_access_with_args username (cmd :: args) reqId tr ≠ SgnlResult.allowed →
        get_current_username userInfo sudoUser pwName = username →
        ¬ username.length = 0 →
        policy_check true envp userInfo sudoUser pwName (cmd :: args)
            execOk pathEnv cwd reqId tr =
          { rc := SUDO_RC_REJECT, errstr := some "Access denied by SGNL policy" }) := by
  have hc : check_sudo_access_with_args username (cmd :: args) reqId tr =
      batch_overall_result slots := by
    show (if (args.filter (fun a => a.length > 0)).length = 0 then
        sgnl_check_access username (some cmd) (some "sudo") reqId tr
      else
        match sgnl_evaluate_access_batch username
            (some cmd :: (args.filter (fun a => a.length > 0)).map some)
            (some ("sudo" :: (args.filter (fun a => a.length > 0)).map (fun _ => cmd)))
            reqId tr with
        | none => SgnlResult.error
        | some results => batch_overall_result results) = batch_overall_result slots
    rw [if_neg hargs, hbatch]
  have hspec := batch_overall_result_spec slots hfull
  refine ⟨?_, ?_, ?_⟩
  · rw [hc]
    exact hspec.1
  · intro pre r rest hp hpre hr
    rw [hc]
    exact hspec.2 pre r rest hp hpre hr
  · intro hnall hu hne
    simp only [policy_check]
    rw [if_neg (by simp), if_neg (by simp), hu, if_neg hne]
    simp only [policy_check_core]
    rw [if_pos hnall]

/-- Witness for claim C1 at concrete inputs: an Allow/Deny pair of
decisions for the command `cat` with argument `x`. -/
theorem sudo_and_of_decisions_witness :
    (check_sudo_access_with_args "alice" ["cat", "x"] "r1"
        (Transport.perform none 200 (RespBody.json ⟨none,
          some [some ⟨some "Allow", none, none⟩, some ⟨some "Deny", none, none⟩]⟩)) =
        SgnlResult.allowed ↔
      ∀ r : AccessResult,
        some r ∈ batch_build_slots "alice" "r1" [some "cat", some "x"] (some ["sudo", "cat"])
          [some ⟨some "Allow", none, none⟩, some ⟨some "Deny", none, none⟩] →
        r.result = SgnlResult.allowed) :=
  (sudo_and_of_decisions "alice" "cat" "r1" ["x"]
    (Transport.perform none 200 (RespBody.json ⟨none,
      some [some ⟨some "Allow", none, none⟩, some ⟨some "Deny", none, none⟩]⟩))
    (batch_build_slots "alice" "r1" [some "cat", some "x"] (some ["sudo", "cat"])
      [some ⟨some "Allow", none, none⟩, some ⟨some "Deny", none, none⟩])
    [] [] none none (fun _ => true) none none
    (by decide) rfl (by decide)).1

/-- Claim C3 (amended): a successful batch evaluation returns the
positional slot array with exactly n slots; every slot beyond the decision
count holds the synthetic Denied result with decision string "Deny",
carrying its own query's asset id and action; a slot whose decision
element is an object carries its query's asset id and action; a slot whose
decision element is JSON null is empty. -/
theorem batch_positional_spec (p reqId : String) (assetIds : List (Option String))
    (acts : Option (List String)) (ae : Option (Option String))
    (ds : List (Option Decision)) (hn : ¬ assetIds.length = 0) :
    sgnl_evaluate_access_batch p assetIds acts reqId
        (Transport.perform none 200 (RespBody.json ⟨ae, some ds⟩)) =
      some (batch_build_slots p reqId assetIds acts ds)
    ∧ (batch_build_slots p reqId assetIds acts ds).length = assetIds.length
    ∧ (∀ i, i < assetIds.length → ds.length ≤ i →
        (batch_build_slots p reqId assetIds acts ds).get? i =
          some (some (batch_default_denied p reqId assetIds acts i))
        ∧ (batch_default_denied p reqId assetIds acts i).result = SgnlResult.denied
        ∧ (batch_default_denied p reqId assetIds acts i).decision = "Deny"
        ∧ (batch_default_denied p reqId assetIds acts i).assetId =
            ((assetIds.get? i).getD none).getD ""
        ∧ (batch_default_denied p reqId assetIds acts i).action = batch_action acts i)
    ∧ (∀ i d, i < assetIds.length → ds.get? i = some (some d) →
        (batch_build_slots p reqId assetIds acts ds).get? i =
          some (some (batch_decision_result p reqId assetIds acts i d))
        ∧ (batch_decision_result p reqId assetIds acts i d).assetId =
            ((assetIds.get? i).getD none).getD ""
        ∧ (batch_decision_result p reqId assetIds acts i d).action = batch_action acts i)
    ∧ (∀ i, i < assetIds.length → ds.get? i = some none →
        (batch_build_slots p reqId assetIds acts ds).get? i = some none) := by
  refine ⟨?_, ?_, ?_, ?_, ?_⟩
  · simp [sgnl_evaluate_access_batch, make_http_request, hn]
  · simp [batch_build_slots]
  · intro i hi hge
    refine ⟨?_, rfl, rfl, rfl, rfl⟩
    have hnone : ds[i]? = none := by
      rw [← List.get?_eq_getElem?]
      exact List.get?_eq_none.mpr hge
    unfold batch_build_slots
    rw [List.get?_map, List.get?_range hi]
    simp [hnone]
  · intro i d hi hget
    refine ⟨?_, batch_decision_result_assetId p reqId assetIds acts i d,
      batch_decision_result_action p reqId assetIds acts i d⟩
    have hg : ds[i]? = some (some d) := by
      rw [← List.get?_eq_getElem?]
      exact hget
    unfold batch_build_slots
    rw [List.get?_map, List.get?_range hi]
    simp [hg]
  · intro i hi hget
    have hg : ds[i]? = some none := by
      rw [← List.get?_eq_getElem?]
      exact hget
    unfold batch_build_slots
    rw [List.get?_map, List.get?_range hi]
    simp [hg]

/-- Witness for claim C3: three queries, two decisions; the third slot is
the synthetic Denied fill. -/
theorem batch_positional_spec_witness :
    sgnl_evaluate_access_batch "u" [some "a", some "b", some "c"] none "r"
        (Transport.perform none 200 (RespBody.json ⟨none,
          some [some ⟨some "Allow", none, none⟩, some ⟨some "Deny", none, none⟩]⟩)) =
      some (batch_build_slots "u" "r" [some "a", some "b", some "c"] none
        [some ⟨some "Allow", none, none⟩, some ⟨some "Deny", none, none⟩])
    ∧ (batch_build_slots "u" "r" [some "a", some "b", some "c"] none
        [some ⟨some "Allow", none, none⟩, some ⟨some "Deny", none, none⟩]).get? 2 =
      some (some (batch_default_denied "u" "r" [some "a", some "b", some "c"] none 2)) :=
  ⟨(batch_positional_spec "u" "r" [some "a", some "b", some "c"] none none
      [some ⟨some "Allow", none, none⟩, some ⟨some "Deny", none, none⟩] (by decide)).1,
   ((batch_positional_spec "u" "r" [some "a", some "b", some "c"] none none
      [some ⟨some "Allow", none, none⟩, some ⟨some "Deny", none, none⟩] (by decide)).2.2.1 2
      (by decide) (by decide)).1⟩

/-- Claim C4 (amended): a per-query decision object lacking the decision
field yields Denied in a single evaluation, but in a batch evaluation the
corresponding slot keeps the generic Error kind with an empty decision
string. -/
theorem missing_decision_field_results (p reqId : String) (aid act : Option String)
    (rsn aidf : Option String) (rest : List (Option Decision))
    (assetIds : List (Option String)) (acts : Option (List String)) (i : Nat)
    (d : Decision) (hd : d.decision = none) :
    (sgnl_evaluate_access p aid act reqId
        (Transport.perform none 200 (RespBody.json ⟨none,
          some (some ⟨none, rsn, aidf⟩ :: rest)⟩))).result = SgnlResult.denied
    ∧ (batch_decision_result p reqId assetIds acts i d).result = SgnlResult.error
    ∧ (batch_decision_result p reqId assetIds acts i d).decision = "" := by
  refine ⟨?_, ?_, ?_⟩
  · rcases rsn with _ | rs <;>
      simp [sgnl_evaluate_access, make_http_request, parse_api_response, apply_reason]
  · simp [batch_decision_result, hd, apply_reason_result]
  · simp [batch_decision_result, hd, apply_reason_decision]

/-- Witness for claim C4 at a concrete decision object with a reason but
no decision field. -/
theorem missing_decision_field_results_witness :
    (sgnl_evaluate_access "u" (some "a") none "r"
        (Transport.perform none 200 (RespBody.json ⟨none,
          some (some ⟨none, some "why", none⟩ :: [])⟩))).result = SgnlResult.denied
    ∧ (batch_decision_result "u" "r" [some "a"] none 0 ⟨none, some "why", none⟩).result =
        SgnlResult.error
    ∧ (batch_decision_result "u" "r" [some "a"] none 0 ⟨none, some "why", none⟩).decision =
        "" :=
  missing_decision_field_results "u" "r" (some "a") none (some "why") none []
    [some "a"] none 0 ⟨none, some "why", none⟩ rfl

/-- Claim C5 (amended): an empty resolved principal makes the sudo check
return ERROR before the service is consulted (the outcome is the same for
every transport); the literal "unknown" principal is not special-cased —
the check proceeds to the authorization path with it. -/
theorem policy_check_username_guard (envp userInfo : List String)
    (sudoUser pwName : Option String) (cmd : String) (args : List String)
    (execOk : String → Bool) (pathEnv cwd : Option String) (reqId : String)
    (tr : Transport) :
    (get_current_username userInfo sudoUser pwName = "" →
      policy_check true envp userInfo sudoUser pwName (cmd :: args)
          execOk pathEnv cwd reqId tr =
        { rc := SUDO_RC_ERROR, errstr := some "Cannot determine username" })
    ∧ (get_current_username userInfo sudoUser pwName = "unknown" →
      policy_check true envp userInfo sudoUser pwName (cmd :: args)
          execOk pathEnv cwd reqId tr =
        policy_check_core "unknown" envp (cmd :: args) execOk pathEnv cwd reqId tr) := by
  constructor
  · intro hu
    simp only [policy_check]
    rw [if_neg (by simp), if_neg (by simp), hu]
    simp
  · intro hu
    simp only [policy_check]
    rw [if_neg (by simp), if_neg (by simp), hu, if_neg (by decide)]

/-- Witness for claim C5: a `user=` entry with an empty value resolves to
the empty principal and yields ERROR for an arbitrary transport. -/
theorem policy_check_username_guard_witness :
    policy_check true [] ["user="] none none ["ls"] (fun _ => true) none none "r"
        Transport.initFail =
      { rc := SUDO_RC_ERROR, errstr := some "Cannot determine username" } :=
  (policy_check_username_guard [] ["user="] none none "ls" [] (fun _ => true)
    none none "r" Transport.initFail).1 rfl

/-- Claim C6 (amended): a failure to set up the request (NULL response)
yields NetworkError; a transfer failure reported by the HTTP library
zeroes the status and yields the generic Error kind with error_code 0;
status 401 or 403 yields AuthError, status 500 or greater yields
NetworkError, and every other non-200 status yields the generic Error
kind, each with the status recorded in error_code. -/
theorem http_status_to_result_kind (p reqId : String) (aid act : Option String)
    (body : RespBody) (e : String) (st : Int) :
    (sgnl_evaluate_access p aid act reqId Transport.initFail).result =
      SgnlResult.networkError
    ∧ ((sgnl_evaluate_access p aid act reqId (Transport.perform (some e) st body)).result =
          SgnlResult.error
        ∧ (sgnl_evaluate_access p aid act reqId
            (Transport.perform (some e) st body)).errorCode = 0)
    ∧ (st = 401 ∨ st = 403 →
        (sgnl_evaluate_access p aid act reqId (Transport.perform none st body)).result =
          SgnlResult.authError
        ∧ (sgnl_evaluate_access p aid act reqId (Transport.perform none st body)).errorCode =
            st)
    ∧ (st ≥ 500 →
        (sgnl_evaluate_access p aid act reqId (Transport.perform none st body)).result =
          SgnlResult.networkError
        ∧ (sgnl_evaluate_access p aid act reqId (Transport.perform none st body)).errorCode =
            st)
    ∧ (¬ st = 200 → ¬ st = 401 → ¬ st = 403 → st < 500 →
        (sgnl_evaluate_access p aid act reqId (Transport.perform none st body)).result =
          SgnlResult.error
        ∧ (sgnl_evaluate_access p aid act reqId (Transport.perform none st body)).errorCode =
            st) := by
  refine ⟨?_, ⟨?_, ?_⟩, ?_, ?_, ?_⟩
  · simp [sgnl_evaluate_access, make_http_request, initial_access_result]
  · simp [sgnl_evaluate_access, make_http_request, initial_access_result]
  · simp [sgnl_evaluate_access, make_http_request, initial_access_result]
  · intro h
    have h200 : ¬ st = 200 := by rcases h with rfl | rfl <;> decide
    constructor <;>
      simp [sgnl_evaluate_access, make_http_request, initial_access_result, h200, h]
  · intro h5
    have h200 : ¬ st = 200 := by omega
    have hor : ¬ (st = 401 ∨ st = 403) := by omega
    constructor <;>
      simp [sgnl_evaluate_access, make_http_request, initial_access_result, h200, hor, h5]
  · intro h200 h401 h403 hlt
    have hfive : ¬ st ≥ 500 := by omega
    constructor <;>
      simp [sgnl_evaluate_access, make_http_request, initial_access_result,
        h200, h401, h403, hfive]

/-- Witness for claim C6: status 401 maps to AuthError and status 502 maps
to NetworkError at concrete inputs. -/
theorem http_status_to_result_kind_witness :
    ((sgnl_evaluate_access "u" none none "r"
        (Transport.perform none 401 RespBody.unparsable)).result = SgnlResult.authError
      ∧ (sgnl_evaluate_access "u" none none "r"
          (Transport.perform none 401 RespBody.unparsable)).errorCode = 401)
    ∧ (sgnl_evaluate_access "u" none none "r"
        (Transport.perform none 502 RespBody.unparsable)).result = SgnlResult.networkError :=
  ⟨(http_status_to_result_kind "u" "r" none none RespBody.unparsable "x" 401).2.2.1
      (Or.inl rfl),
   ((http_status_to_result_kind "u" "r" none none RespBody.unparsable "x" 502).2.2.2.1
      (by decide)).1⟩

/-- Claim C8 (amended): with strict_validation = false every parsed
document loads with OK and is marked initialized, even when the required
api_url or api_token is missing; a configuration whose api_url is empty
still fails `sgnl_config_validate` with the missing-required error, and
the loader surfaces that error only under strict validation. -/
theorem config_load_nonstrict_skips_validation (j : ConfigJson) :
    (sgnl_config_load false (ConfigFileOutcome.parsed j)).1 = SgnlConfigResult.ok
    ∧ (sgnl_config_load false (ConfigFileOutcome.parsed j)).2.initialized = true
    ∧ ((apply_config_values (sgnl_config_set_defaults {}) j).api_url = "" →
        sgnl_config_validate (apply_config_values (sgnl_config_set_defaults {}) j) =
          SgnlConfigResult.missingRequired)
    ∧ (sgnl_config_validate (apply_config_values (sgnl_config_set_defaults {}) j) ≠
          SgnlConfigResult.ok →
        (sgnl_config_load true (ConfigFileOutcome.parsed j)).1 =
          sgnl_config_validate (apply_config_values (sgnl_config_set_defaults {}) j)) := by
  refine ⟨?_, ?_, ?_, ?_⟩
  · simp [sgnl_config_load]
  · simp [sgnl_config_load]
  · intro h
    simp [sgnl_config_validate, h]
  · intro h
    simp [sgnl_config_load, h]

/-- Witness for claim C8: a document carrying only api_token fails
validation with missing-required, and a strict load surfaces exactly that
error. -/
theorem config_load_nonstrict_skips_validation_witness :
    sgnl_config_validate (apply_config_values (sgnl_config_set_defaults {})
        { api_token := some (JsonVal.str "tok") }) = SgnlConfigResult.missingRequired
    ∧ (sgnl_config_load true
          (ConfigFileOutcome.parsed { api_token := some (JsonVal.str "tok") })).1 =
        sgnl_config_validate (apply_config_values (sgnl_config_set_defaults {})
          { api_token := some (JsonVal.str "tok") }) :=
  ⟨(config_load_nonstrict_skips_validation { api_token := some (JsonVal.str "tok") }).2.2.1
      rfl,
   (config_load_nonstrict_skips_validation { api_token := some (JsonVal.str "tok") }).2.2.2
      (by decide)⟩

/-- Claim C10: whenever client creation with a caller-supplied
configuration succeeds, the created client's timeout, user agent and debug
flag equal the values of the loaded configuration file (or its defaults),
because the file load runs after the caller's overrides and overwrites
those fields. -/
theorem client_create_file_overrides_caller (cc : ClientConfig)
    (file : ConfigFileOutcome) (c : Client)
    (h : sgnl_client_create (some cc) file = some c) :
    c.timeout_seconds = (sgnl_config_load true file).2.http_timeout_seconds
    ∧ c.user_agent = (sgnl_config_load true file).2.user_agent
    ∧ c.debug_enabled = (sgnl_config_load true file).2.debug_mode := by
  unfold sgnl_client_create at h
  split at h
  · exact absurd h (by simp)
  · rename_i c2 hl
    split at h
    · exact absurd h (by simp)
    · obtain rfl := (Option.some.inj h).symm
      unfold load_config_from_common_system at hl
      split at hl
      · obtain rfl := Option.some.inj hl
        exact ⟨rfl, rfl, rfl⟩
      · exact absurd hl (by simp)

/-- Witness for claim C10: a caller override of timeout, user agent, and
debug is replaced by the file's defaults after a successful load. -/
theorem client_create_file_overrides_caller_witness :
    ({ api_url := "sgnlapis.cloud", api_token := "tok", tenant := ""
       timeout_seconds := 10, connect_timeout_seconds := 3
       ssl_verify_peer := false, ssl_verify_host := false
       user_agent := "SGNL-Client/1.0", debug_enabled := false
       initialized := true } : Client).timeout_seconds =
      (sgnl_config_load true (ConfigFileOutcome.parsed
        { api_url := some (JsonVal.str "sgnlapis.cloud")
          api_token := some (JsonVal.str "tok") })).2.http_timeout_seconds
    ∧ ({ api_url := "sgnlapis.cloud", api_token := "tok", tenant := ""
         timeout_seconds := 10, connect_timeout_seconds := 3
         ssl_verify_peer := false, ssl_verify_host := false
         user_agent := "SGNL-Client/1.0", debug_enabled := false
         initialized := true } : Client).user_agent =
      (sgnl_config_load true (ConfigFileOutcome.parsed
        { api_url := some (JsonVal.str "sgnlapis.cloud")
          api_token := some (JsonVal.str "tok") })).2.user_agent
    ∧ ({ api_url := "sgnlapis.cloud", api_token := "tok", tenant := ""
         timeout_seconds := 10, connect_timeout_seconds := 3
         ssl_verify_peer := false, ssl_verify_host := false
         user_agent := "SGNL-Client/1.0", debug_enabled := false
         initialized := true } : Client).debug_enabled =
      (sgnl_config_load true (ConfigFileOutcome.parsed
        { api_url := some (JsonVal.str "sgnlapis.cloud")
          api_token := some (JsonVal.str "tok") })).2.debug_mode :=
  client_create_file_overrides_caller
    { timeout_seconds := 99, enable_debug_logging := true, validate_ssl := false
      user_agent := some "Custom/9" }
    (ConfigFileOutcome.parsed
      { api_url := some (JsonVal.str "sgnlapis.cloud")
        api_token := some (JsonVal.str "tok") })
    { api_url := "sgnlapis.cloud", api_token := "tok", tenant := ""
      timeout_seconds := 10, connect_timeout_seconds := 3
      ssl_verify_peer := false, ssl_verify_host := false
      user_agent := "SGNL-Client/1.0", debug_enabled := false
      initialized := true }
    rfl

end SgnlHost
